import Mathlib

/-!
Shallow embedding of `app/services/auth.py`: password hashing and
verification, signed time-bound token issuance and validation, role
guards, and the `AuthService` operations (registration, login, lookup,
role check).  Persistence is modelled as an explicit list of stored user
rows; time is an explicit `Nat` parameter (seconds).
-/

/-- Errors surfaced by the service.  `httpException status detail` models
`fastapi.HTTPException`; `valueError` models the `ValueError` raised by
`passlib` on a malformed hash string; `attributeError` models the Python
`AttributeError` crash from an attribute access on `None`. -/
inductive PyError where
  | httpException (status : Nat) (detail : String)
  | valueError
  | attributeError
  deriving DecidableEq, Repr

/-- Spec taxonomy: a role-check failure (`Forbidden`) is an HTTP 400. -/
def PyError.isForbidden : PyError → Bool
  | .httpException 400 _ => true
  | _ => false

/-- Spec taxonomy: `InvalidCredentials` is the 406 raised when a token or
login cannot be validated. -/
def PyError.isInvalidCredentials : PyError → Bool
  | .httpException 406 "Could not validate credentials." => true
  | .httpException 406 "Incorrect username or password." => true
  | _ => false

/-- Spec taxonomy: `NotFound` is the 406 raised when a user id is absent. -/
def PyError.isNotFound : PyError → Bool
  | .httpException 406 "User with this id does not exist." => true
  | _ => false

/-- Modelled from the spec: `app/models/roles.py` is not in the sources.
RoleName is the enumerated set \x7buser, instructor, administrator\x7d. -/
inductive RoleName where
  | user
  | instructor
  | administrator
  deriving DecidableEq, Repr

/-- The `.name` attribute of the Python enum member. -/
def RoleName.name : RoleName → String
  | .user => "user"
  | .instructor => "instructor"
  | .administrator => "administrator"

/-- Modelled from the spec: `app/models/auth.py` is not in the sources.
The claims-carried `User` pydantic model: identifier, username, email,
role name. -/
structure User where
  id : Int
  username : String
  email : String
  role_name : String
  deriving DecidableEq, Repr

/-- Model of a `passlib` bcrypt hash string: a well-formed hash records
the salt and the password it was computed from; any other string is
malformed. -/
inductive BcryptStr where
  | wellFormed (salt : Nat) (password : String)
  | malformed (raw : String)
  deriving DecidableEq, Repr

/-- Embeds `passlib.hash.bcrypt.hash` with an explicit fresh salt. -/
def bcrypt_hash (password : String) (salt : Nat) : BcryptStr :=
  .wellFormed salt password

/-- Embeds `passlib.hash.bcrypt.verify`: compares against a well-formed hash;
raises `ValueError` when the hash string is not a recognized bcrypt
hash. -/
def bcrypt_verify (password : String) (hashed : BcryptStr) :
    Except PyError Bool :=
  match hashed with
  | .wellFormed _ pw => .ok (pw == password)
  | .malformed _ => .error .valueError

/-- Modelled from the spec: `app/tables.py` is not in the sources.  The
persisted `StoredUser` row: identifier, username, email, password hash,
role name. -/
structure StoredUser where
  id : Int
  username : String
  email : String
  password_hash : BcryptStr
  role_name : String
  deriving DecidableEq, Repr

/-- Modelled from the spec: `app/settings.py` is not in the sources.
Configuration: `jwt_secret`, `jwt_algorithm`, `jwt_expiration` (seconds). -/
structure Settings where
  jwt_secret : String
  jwt_algorithm : String
  jwt_expiration : Nat
  deriving DecidableEq, Repr

/-- Modelled from the spec: the registration input `UserCreate`
(email, username, password). -/
structure UserCreate where
  email : String
  username : String
  password : String
  deriving DecidableEq, Repr

/-- The claims object carried inside a signed token: issued-at,
not-before, expiry, subject, and the embedded `user` payload.  The
payload is `none` when the `user` claim is absent or does not
deserialize into the `User` shape. -/
structure Claims where
  iat : Nat
  nbf : Nat
  exp : Nat
  sub : String
  user : Option User
  deriving DecidableEq, Repr

/-- A signed token: the claims together with the secret and algorithm
they were signed under (`jose.jwt.encode`). -/
structure SignedToken where
  claims : Claims
  secret : String
  alg : String
  deriving DecidableEq, Repr

/-- Embeds `jose.jwt.encode(payload, secret, algorithm)`. -/
def jwt_encode (payload : Claims) (secret alg : String) : SignedToken :=
  ⟨payload, secret, alg⟩

/-- Embeds `jose.jwt.decode(token, secret, algorithms=[alg])` at time `now`:
succeeds iff the signature verifies under the configured secret and
algorithm, `nbf ≤ now`, and the token is not expired (`now ≤ exp`;
jose raises `ExpiredSignatureError` exactly when `now > exp`).  Any
failure is a `JWTError`. -/
def jwt_decode (token : SignedToken) (secret alg : String) (now : Nat) :
    Except Unit Claims :=
  if token.secret == secret && token.alg == alg
      && token.claims.nbf ≤ now && now ≤ token.claims.exp then
    .ok token.claims
  else
    .error ()

/-- The pydantic `Token` response model wrapping the access token. -/
structure Token where
  access_token : SignedToken
  deriving DecidableEq, Repr

/-- Embeds `User.from_orm`: convert a stored row to the claims-carried shape. -/
def userOfStored (u : StoredUser) : User :=
  { id := u.id, username := u.username, email := u.email,
    role_name := u.role_name }

namespace AuthService

/-- Embeds `AuthService.verify_password`. -/
def verify_password (plain_password : String) (hashed_password : BcryptStr) :
    Except PyError Bool :=
  bcrypt_verify plain_password hashed_password

/-- Embeds `AuthService.hash_password`. -/
def hash_password (password : String) (salt : Nat) : BcryptStr :=
  bcrypt_hash password salt

/-- Embeds `AuthService.validate_token`: decode (JWTError ↦ 406), read the
`user` claim, parse it into `User` (ValidationError ↦ 406). -/
def validate_token (st : Settings) (now : Nat) (token : SignedToken) :
    Except PyError User :=
  match jwt_decode token st.jwt_secret st.jwt_algorithm now with
  | .error _ =>
      .error (.httpException 406 "Could not validate credentials.")
  | .ok payload =>
      match payload.user with
      | none =>
          .error (.httpException 406 "Could not validate credentials.")
      | some user => .ok user

/-- Embeds `AuthService.create_token`: claims are `iat = nbf = now`,
`exp = now + jwt_expiration`, `sub` the user id as string, `user` the
serialized user model. -/
def create_token (st : Settings) (now : Nat) (user : StoredUser) : Token :=
  let user_data := userOfStored user
  let payload : Claims :=
    { iat := now, nbf := now, exp := now + st.jwt_expiration,
      sub := toString user_data.id, user := some user_data }
  ⟨jwt_encode payload st.jwt_secret st.jwt_algorithm⟩

/-- Embeds `AuthService._get`: first stored row with the given id, else 406
"User with this id does not exist.". -/
def get_ (db : List StoredUser) (user_id : Int) :
    Except PyError StoredUser :=
  match db.find? (fun u => u.id == user_id) with
  | none => .error (.httpException 406 "User with this id does not exist.")
  | some user => .ok user

/-- Embeds `AuthService._check_role_by_user_id`: look the user up; if its role
matches, return it; otherwise the Python function falls off the end and
returns `None`. -/
def check_role_by_user_id (db : List StoredUser) (user_id : Int)
    (role_name : String) : Except PyError (Option StoredUser) :=
  match get_ db user_id with
  | .error e => .error e
  | .ok user =>
      if user.role_name == role_name then .ok (some user) else .ok none

/-- Embeds `AuthService.register_new_user`: hash the password, persist one row
with `role_name = RoleName.user.name`, return a fresh token.  The salt
and the database-assigned id are explicit parameters. -/
def register_new_user (st : Settings) (db : List StoredUser) (now : Nat)
    (salt : Nat) (new_id : Int) (user_data : UserCreate) :
    List StoredUser × Token :=
  let user : StoredUser :=
    { id := new_id, email := user_data.email,
      username := user_data.username,
      password_hash := hash_password user_data.password salt,
      role_name := RoleName.user.name }
  (db ++ [user], create_token st now user)

/-- Embeds `AuthService.authenticate_user`: look the user up by username.  The
source line `if not User:` tests the pydantic class `User`, which is
always truthy, so the absent-user branch never fires; when the query
returns no row the subsequent `user.password_hash` access on `None`
raises `AttributeError`. -/
def authenticate_user (st : Settings) (db : List StoredUser) (now : Nat)
    (username password : String) : Except PyError Token :=
  match db.find? (fun u => u.username == username) with
  | none => .error .attributeError
  | some user =>
      match verify_password password user.password_hash with
      | .error e => .error e
      | .ok ok =>
          if !ok then
            .error (.httpException 406 "Incorrect username or password.")
          else
            .ok (create_token st now user)

/-- Embeds `AuthService.get`. -/
def get (db : List StoredUser) (user_id : Int) :
    Except PyError StoredUser :=
  get_ db user_id

/-- Embeds `AuthService.get_list`: all rows, optionally filtered by role. -/
def get_list (db : List StoredUser) (role_name : Option RoleName) :
    List StoredUser :=
  match role_name with
  | none => db
  | some r => db.filter (fun u => u.role_name == r.name)

end AuthService

/-- Embeds `get_current_user`: resolve the bearer token to a `User`. -/
def get_current_user (st : Settings) (now : Nat) (token : SignedToken) :
    Except PyError User :=
  AuthService.validate_token st now token

/-- Embeds `is_administrator` role guard: 400 unless the role is administrator. -/
def is_administrator (current_user : User) : Except PyError User :=
  if current_user.role_name != RoleName.administrator.name then
    .error (.httpException 400 "User is not administrator.")
  else
    .ok current_user

/-- Embeds `is_not_administrator` role guard: 400 when the role is administrator. -/
def is_not_administrator (current_user : User) : Except PyError User :=
  if current_user.role_name == RoleName.administrator.name then
    .error (.httpException 400 "User is administrator.")
  else
    .ok current_user

/-- Embeds `is_instructor_or_higher` role guard: 400 unless the role is
instructor or administrator. -/
def is_instructor_or_higher (current_user : User) : Except PyError User :=
  if !(current_user.role_name == RoleName.instructor.name
        || current_user.role_name == RoleName.administrator.name) then
    .error (.httpException 400 "User is not instructor or high.")
  else
    .ok current_user

/-- Embeds `is_instructor` role guard: 400 unless the role is instructor. -/
def is_instructor (current_user : User) : Except PyError User :=
  if current_user.role_name != RoleName.instructor.name then
    .error (.httpException 400 "User is not instructor.")
  else
    .ok current_user

/-! Sample concrete values used by witnesses. -/

/-- A sample configuration. -/
def sampleSettings : Settings :=
  { jwt_secret := "secret", jwt_algorithm := "HS256", jwt_expiration := 60 }

/-- A sample stored user row. -/
def aliceStored : StoredUser :=
  { id := 1, username := "alice", email := "a@x.com",
    password_hash := BcryptStr.wellFormed 7 "pw123", role_name := "user" }

/-- A sample resolved user with the administrator role. -/
def adminUser : User :=
  { id := 2, username := "root", email := "r@x.com",
    role_name := "administrator" }

/-- C1. The claim asserts `authenticate_user` fails with
`InvalidCredentials` when no stored user has the given username.  On the
source as written the account-lookup check `if not User:` tests the
always-truthy class `User`, so the missing-user branch never fires and
the `user.password_hash` access on `None` raises `AttributeError`
instead: with an empty user table, authenticating as "bob" crashes
rather than failing with `InvalidCredentials`. -/
theorem C1_authenticate_user_absent_user_crashes :
    AuthService.authenticate_user sampleSettings [] 0 "bob" "pw"
      = .error .attributeError
    ∧ PyError.isInvalidCredentials .attributeError = false := by
  constructor <;> rfl

/-- C5 counterexample. The claim asserts `verify_password` returns a
boolean (false) on a malformed hash string and never throws; at the
concrete malformed hash below it instead raises `ValueError`. -/
theorem C5_counterexample :
    AuthService.verify_password "pw" (BcryptStr.malformed "not-a-hash")
      = .error .valueError := rfl

/-- C5 (amended): `verify_password` returns a boolean on a well-formed
hash — false exactly on a password mismatch — but on a malformed hash
string it propagates the hashing library ValueError (it throws). -/
theorem C5_amended_verify_password (p q raw : String) (salt : Nat) :
    AuthService.verify_password p (BcryptStr.wellFormed salt q)
      = .ok (q == p)
    ∧ AuthService.verify_password p (BcryptStr.malformed raw)
      = .error .valueError :=
  ⟨rfl, rfl⟩

/-- C8. `register_new_user` persists exactly one new stored row, whose
role is "user" regardless of the input, and returns a token issued for
that row. -/
theorem C8_register_new_user (st : Settings) (db : List StoredUser)
    (now salt : Nat) (new_id : Int) (input : UserCreate) :
    ∃ u : StoredUser,
      (AuthService.register_new_user st db now salt new_id input).1
        = db ++ [u]
      ∧ u.role_name = RoleName.user.name
      ∧ u.username = input.username
      ∧ u.email = input.email
      ∧ u.password_hash = AuthService.hash_password input.password salt
      ∧ (AuthService.register_new_user st db now salt new_id input).2
          = AuthService.create_token st now u :=
  ⟨_, rfl, rfl, rfl, rfl, rfl, rfl⟩

/-- C3. Each role guard succeeds exactly when the user role is in its
allowed set; on success every guard returns the user it was given; every
failure is a `Forbidden` (HTTP 400) error. -/
theorem C3_role_guards (u : User) :
    (is_administrator u = .ok u ↔ u.role_name = RoleName.administrator.name)
    ∧ (is_not_administrator u = .ok u
        ↔ u.role_name ≠ RoleName.administrator.name)
    ∧ (is_instructor_or_higher u = .ok u
        ↔ (u.role_name = RoleName.instructor.name
            ∨ u.role_name = RoleName.administrator.name))
    ∧ (is_instructor u = .ok u ↔ u.role_name = RoleName.instructor.name)
    ∧ (∀ v : User,
        (is_administrator u = .ok v ∨ is_not_administrator u = .ok v
          ∨ is_instructor_or_higher u = .ok v ∨ is_instructor u = .ok v)
        → v = u)
    ∧ (∀ e : PyError,
        (is_administrator u = .error e ∨ is_not_administrator u = .error e
          ∨ is_instructor_or_higher u = .error e
          ∨ is_instructor u = .error e)
        → e.isForbidden = true) := by
  unfold is_administrator is_not_administrator is_instructor_or_higher
    is_instructor
  by_cases ha : u.role_name = RoleName.administrator.name
    <;> by_cases hi : u.role_name = RoleName.instructor.name
    <;> simp_all [RoleName.name, PyError.isForbidden]
    <;> intro v h
    <;> rcases h with h | h | h | h
    <;> (try subst h)
    <;> rfl

/-- C3 witness: the sample administrator passes the admin-only guard and
is returned unchanged. -/
theorem C3_role_guards_witness :
    is_administrator adminUser = .ok adminUser :=
  (C3_role_guards adminUser).1.mpr rfl

/-- C2. Round trip: a token issued by `create_token` at time `t0`, when
validated under the same settings at any time `t1` within the configured
ttl of issuance, yields exactly the user embedded at issuance. -/
theorem C2_token_round_trip (st : Settings) (u : StoredUser) (t0 t1 : Nat)
    (_h0 : 0 < st.jwt_expiration) (h1 : t0 ≤ t1)
    (h2 : t1 ≤ t0 + st.jwt_expiration) :
    AuthService.validate_token st t1
      (AuthService.create_token st t0 u).access_token
      = .ok (userOfStored u) := by
  simp [AuthService.validate_token, AuthService.create_token, jwt_decode,
    jwt_encode, h1, h2]

/-- C2 witness: the round trip at concrete settings, user and times. -/
theorem C2_token_round_trip_witness :
    AuthService.validate_token sampleSettings 30
      (AuthService.create_token sampleSettings 0 aliceStored).access_token
      = .ok (userOfStored aliceStored) :=
  C2_token_round_trip sampleSettings aliceStored 0 30 (by decide)
    (by decide) (by decide)

/-- C4. Embeds the `get` contract: when no stored user has the requested
id the call fails with the `NotFound` outcome, and when the query finds
a row that row is returned. -/
theorem C4_get (db : List StoredUser) (user_id : Int) :
    ((∀ u ∈ db, u.id ≠ user_id) →
      ∃ e : PyError, AuthService.get db user_id = .error e
        ∧ e.isNotFound = true)
    ∧ ∀ u, db.find? (fun v => v.id == user_id) = some u →
        AuthService.get db user_id = .ok u := by
  constructor
  · intro h
    refine ⟨.httpException 406 "User with this id does not exist.",
      ?_, rfl⟩
    unfold AuthService.get AuthService.get_
    have hf : db.find? (fun v => v.id == user_id) = none := by
      rw [List.find?_eq_none]
      intro x hx
      simpa using h x hx
    rw [hf]
  · intro u hu
    unfold AuthService.get AuthService.get_
    rw [hu]

/-- C4 witness: lookup of an absent id fails as `NotFound`; lookup of a
present id returns the stored row. -/
theorem C4_get_witness :
    (∃ e : PyError, AuthService.get [aliceStored] 5 = .error e
      ∧ e.isNotFound = true)
    ∧ AuthService.get [aliceStored] 1 = .ok aliceStored :=
  ⟨(C4_get [aliceStored] 5).1 (by decide),
   (C4_get [aliceStored] 1).2 aliceStored (by decide)⟩

/-- A sample token whose expiry is in the past at time 11. -/
def expiredToken : SignedToken :=
  ⟨⟨0, 0, 10, "1", some (userOfStored aliceStored)⟩, "secret", "HS256"⟩

/-- A sample token signed under a secret other than the configured one. -/
def foreignToken : SignedToken :=
  ⟨⟨0, 0, 60, "1", some (userOfStored aliceStored)⟩, "other-secret", "HS256"⟩

/-- C6. A token validated after its expiry (`exp < now`) fails with the
`InvalidCredentials` outcome. -/
theorem C6_expired_token (st : Settings) (now : Nat) (tok : SignedToken)
    (h : tok.claims.exp < now) :
    AuthService.validate_token st now tok
      = .error (.httpException 406 "Could not validate credentials.")
    ∧ PyError.isInvalidCredentials
        (.httpException 406 "Could not validate credentials.") = true := by
  refine ⟨?_, rfl⟩
  unfold AuthService.validate_token jwt_decode
  have hn : ¬ (now ≤ tok.claims.exp) := Nat.not_le.mpr h
  simp [hn]

/-- C6 witness: the sample expired token fails at time 11. -/
theorem C6_expired_token_witness :
    AuthService.validate_token sampleSettings 11 expiredToken
      = .error (.httpException 406 "Could not validate credentials.")
    ∧ PyError.isInvalidCredentials
        (.httpException 406 "Could not validate credentials.") = true :=
  C6_expired_token sampleSettings 11 expiredToken (by decide)

/-- C7. A token signed with a secret different from the configured
`jwt_secret` fails with the `InvalidCredentials` outcome. -/
theorem C7_wrong_secret (st : Settings) (now : Nat) (tok : SignedToken)
    (h : tok.secret ≠ st.jwt_secret) :
    AuthService.validate_token st now tok
      = .error (.httpException 406 "Could not validate credentials.")
    ∧ PyError.isInvalidCredentials
        (.httpException 406 "Could not validate credentials.") = true := by
  refine ⟨?_, rfl⟩
  unfold AuthService.validate_token jwt_decode
  simp [h]

/-- C7 witness: the sample token under a foreign secret fails. -/
theorem C7_wrong_secret_witness :
    AuthService.validate_token sampleSettings 5 foreignToken
      = .error (.httpException 406 "Could not validate credentials.")
    ∧ PyError.isInvalidCredentials
        (.httpException 406 "Could not validate credentials.") = true :=
  C7_wrong_secret sampleSettings 5 foreignToken (by decide)

/-- C9. For two tokens that both pass decoding and carry equal `user`
claims, validation returns the same result: the `sub` claim plays no
role and is never checked against the embedded user. -/
theorem C9_sub_ignored (st : Settings) (now : Nat) (t1 t2 : SignedToken)
    (c1 c2 : Claims)
    (h1 : jwt_decode t1 st.jwt_secret st.jwt_algorithm now = .ok c1)
    (h2 : jwt_decode t2 st.jwt_secret st.jwt_algorithm now = .ok c2)
    (hu : c1.user = c2.user) :
    AuthService.validate_token st now t1
      = AuthService.validate_token st now t2 := by
  simp only [AuthService.validate_token, h1, h2, hu]

/-- A sample valid token with subject "1". -/
def tokenSubOne : SignedToken :=
  ⟨⟨0, 0, 60, "1", some adminUser⟩, "secret", "HS256"⟩

/-- A sample valid token identical to `tokenSubOne` except subject "2". -/
def tokenSubTwo : SignedToken :=
  ⟨⟨0, 0, 60, "2", some adminUser⟩, "secret", "HS256"⟩

/-- C9 witness: two valid tokens with different `sub` claims but the
same `user` claim validate to the same result. -/
theorem C9_sub_ignored_witness :
    tokenSubOne.claims.sub ≠ tokenSubTwo.claims.sub
    ∧ AuthService.validate_token sampleSettings 5 tokenSubOne
        = AuthService.validate_token sampleSettings 5 tokenSubTwo :=
  ⟨by decide,
   C9_sub_ignored sampleSettings 5 tokenSubOne tokenSubTwo
     tokenSubOne.claims tokenSubTwo.claims (by rfl) (by rfl) rfl⟩

/-- C10. Embeds the `_check_role_by_user_id` contract: when the user
exists and its role matches, the stored row is returned; when the user
exists but the role differs, the call returns `None` without raising;
it raises (the `NotFound` outcome) only when the id is absent. -/
theorem C10_check_role_by_user_id (db : List StoredUser) (user_id : Int)
    (role : String) :
    (∀ u, db.find? (fun v => v.id == user_id) = some u →
      ((u.role_name = role →
          AuthService.check_role_by_user_id db user_id role
            = .ok (some u))
        ∧ (u.role_name ≠ role →
          AuthService.check_role_by_user_id db user_id role = .ok none)))
    ∧ ((∀ u ∈ db, u.id ≠ user_id) →
        ∃ e : PyError,
          AuthService.check_role_by_user_id db user_id role = .error e
          ∧ e.isNotFound = true) := by
  constructor
  · intro u hu
    constructor
    · intro hr
      unfold AuthService.check_role_by_user_id AuthService.get_
      rw [hu]
      simp [hr]
    · intro hr
      unfold AuthService.check_role_by_user_id AuthService.get_
      rw [hu]
      simp [hr]
  · intro h
    refine ⟨.httpException 406 "User with this id does not exist.",
      ?_, rfl⟩
    unfold AuthService.check_role_by_user_id AuthService.get_
    have hf : db.find? (fun v => v.id == user_id) = none := by
      rw [List.find?_eq_none]
      intro x hx
      simpa using h x hx
    rw [hf]

/-- C10 witness: role match returns the row, role mismatch returns
`None`, absent id raises `NotFound`. -/
theorem C10_check_role_by_user_id_witness :
    AuthService.check_role_by_user_id [aliceStored] 1 "user"
      = .ok (some aliceStored)
    ∧ AuthService.check_role_by_user_id [aliceStored] 1 "administrator"
      = .ok none
    ∧ ∃ e : PyError,
        AuthService.check_role_by_user_id [aliceStored] 9 "user"
          = .error e ∧ e.isNotFound = true :=
  ⟨((C10_check_role_by_user_id [aliceStored] 1 "user").1 aliceStored
      (by decide)).1 rfl,
   ((C10_check_role_by_user_id [aliceStored] 1 "administrator").1
      aliceStored (by decide)).2 (by decide),
   (C10_check_role_by_user_id [aliceStored] 9 "user").2 (by decide)⟩
